import Mathlib

/-!
Shallow embedding of the restic-backup-checker monitoring engine
(`internal/onedrive/client.go`, `internal/monitor` package, `internal/telegram`).

Timestamps are modelled as whole seconds (`Nat`) since Go's zero time, in UTC;
the Go zero `time.Time` is `0`. Token expiry arithmetic uses `Int` seconds.
External collaborators (storage listing, token refresh, Telegram transport)
are modelled as explicit function-valued environment fields returning
`Except String _`, mirroring the Go error returns.
-/

namespace ResticChecker

/-- Seconds in 24 hours, the truncation unit of `time.Truncate(24*time.Hour)`. -/
def daySecs : Nat := 86400

/-- Model of `t.UTC().Truncate(24 * time.Hour)`: round down to the start of the UTC day. -/
def truncDay (t : Nat) : Nat := t - t % daySecs

/-- Model of `onedrive.Folder`: id, name, size. -/
structure Folder where
  id : String
  name : String
  size : Int := 0
deriving Repr, DecidableEq

/-- Model of `onedrive.FileInfo`: id, name, size, created/modified timestamps. -/
structure FileInfo where
  id : String := ""
  name : String := ""
  size : Int := 0
  createdTime : Nat := 0
  modifiedTime : Nat := 0
deriving Repr, DecidableEq

/-- The storage collaborator: `GetSubfolders` and `GetFolderContents` by
folder id, each of which can fail (transport or HTTP error). -/
structure Storage where
  subfoldersOf : String → Except String (List Folder)
  filesOf : String → Except String (List FileInfo)

/-- Storage calls and notification calls observable in one cycle. -/
inductive NotifCall where
  | alert (clientName folderPath : String) (lastBackupIsZero : Bool) (lastBackup : Nat)
  | summary (total success failed : Nat) (failedClients : List String)
deriving Repr, DecidableEq

inductive Event where
  | listSubfolders (folderID : String)
  | listFiles (folderID : String)
  | notif (c : NotifCall)
deriving Repr, DecidableEq

/-- The loop in `GetAllSnapshots` that scans subfolders for one named
`"snapshots"` and takes its id (first match wins, `""` when absent). -/
def findSnapshotsID (subs : List Folder) : String :=
  match subs.find? (fun f => f.name == "snapshots") with
  | some f => f.id
  | none => ""

/-- Model of `Client.GetAllSnapshots`: list subfolders, locate the `snapshots`
subfolder by exact name, then list its files.  The second component records
the storage calls that were issued. -/
def GetAllSnapshots (st : Storage) (folderID : String) :
    Except String (List FileInfo) × List Event :=
  match st.subfoldersOf folderID with
  | .error e =>
      (.error ("failed to get subfolders for folder " ++ folderID ++ ": " ++ e),
       [Event.listSubfolders folderID])
  | .ok subs =>
      let sid := findSnapshotsID subs
      if sid == "" then
        (.error ("snapshots folder not found in folder " ++ folderID),
         [Event.listSubfolders folderID])
      else
        match st.filesOf sid with
        | .error e =>
            (.error ("failed to get snapshot files from folder " ++ sid ++ ": " ++ e),
             [Event.listSubfolders folderID, Event.listFiles sid])
        | .ok files =>
            (.ok files, [Event.listSubfolders folderID, Event.listFiles sid])

/-- The per-file freshness test of `CheckTodayBackups`:
`file.CreatedTime.UTC().Truncate(24h).Equal(time.Now().UTC().Truncate(24h))`. -/
def isCreatedToday (now : Nat) (f : FileInfo) : Bool :=
  truncDay f.createdTime == truncDay now

/-- Model of `Client.CheckTodayBackups`: fetch all snapshot files and keep those
created on the current UTC calendar day; reports whether any exist. -/
def CheckTodayBackups (st : Storage) (now : Nat) (folderID : String) :
    Except String (Bool × List FileInfo) × List Event :=
  match GetAllSnapshots st folderID with
  | (.error e, evs) => (.error e, evs)
  | (.ok allFiles, evs) =>
      let todayFiles := allFiles.filter (isCreatedToday now)
      (.ok (todayFiles.length > 0, todayFiles), evs)

/-- Model of `monitor.BackupStatus`. `lastBackup = 0` is Go's zero `time.Time`
(`IsZero`), i.e. the "absent" timestamp. -/
structure BackupStatus where
  clientName : String
  folderPath : String
  hasBackup : Bool := false
  fileCount : Nat := 0
  lastBackup : Nat := 0
  error : Option String := none
deriving Repr, DecidableEq

/-- The `latestBackup` scan in `checkClientBackup`: start from the zero time
and replace it whenever `file.CreatedTime.After(latestBackup)`. -/
def latestCreated (files : List FileInfo) : Nat :=
  files.foldl (fun acc f => if f.createdTime > acc then f.createdTime else acc) 0

/-- Model of `Monitor.checkClientBackup`: run `CheckTodayBackups`, and on success run
`GetAllSnapshots` once more to find the most recent file overall (a failure
of that second listing is logged and leaves `lastBackup` at zero). -/
def checkClientBackup (st : Storage) (now : Nat) (folderID clientName : String) :
    BackupStatus × List Event :=
  match CheckTodayBackups st now folderID with
  | (.error e, evs) =>
      ({ clientName := clientName, folderPath := folderID, error := some e }, evs)
  | (.ok (hasBackup, recentFiles), evs) =>
      let base : BackupStatus :=
        { clientName := clientName, folderPath := folderID,
          hasBackup := hasBackup, fileCount := recentFiles.length }
      match GetAllSnapshots st folderID with
      | (.error _, evs2) => (base, evs ++ evs2)
      | (.ok allFiles, evs2) =>
          ({ base with lastBackup := latestCreated allFiles }, evs ++ evs2)

/-- The OneDrive part of `config.Config` that `refreshTokenIfNeeded` touches:
access token, refresh token, expiry as Unix seconds (`0` = never recorded). -/
structure OneDriveConfig where
  accessToken : String := ""
  refreshToken : String := ""
  tokenExpiry : Int := 0
deriving Repr, DecidableEq

/-- An `oauth2.Token` as passed to / returned by the refresh collaborator. -/
structure Token where
  accessToken : String
  refreshToken : String
  expiry : Int
deriving Repr, DecidableEq

/-- Model of `Monitor.refreshTokenIfNeeded`, with `now` in Unix seconds.  The Boolean
component records whether the refresh collaborator was invoked.  The guard
`time.Now().Before(expiry.Add(-10 * time.Minute))` becomes
`now < tokenExpiry - 600`. -/
def refreshTokenIfNeeded (cfg : OneDriveConfig) (now : Int)
    (refreshCollab : Token → Except String Token) :
    Except String OneDriveConfig × Bool :=
  if cfg.tokenExpiry == 0 then
    (.error ("no token expiry set"), false)
  else if now < cfg.tokenExpiry - 600 then
    (.ok cfg, false)
  else
    match refreshCollab { accessToken := cfg.accessToken,
                          refreshToken := cfg.refreshToken,
                          expiry := cfg.tokenExpiry } with
    | .error e => (.error ("failed to refresh token: " ++ e), true)
    | .ok t =>
        (.ok { accessToken := t.accessToken, refreshToken := t.refreshToken,
               tokenExpiry := t.expiry }, true)

/-- Go's `LastBackup.IsZero()` switch when building the alert text:
`lastBackupIsZero = true` stands for the `"Unknown"` label. -/
def alertFor (s : BackupStatus) : NotifCall :=
  NotifCall.alert s.clientName s.folderPath (s.lastBackup == 0) s.lastBackup

/-- Model of `Monitor.sendNotifications`: one alert per status without a backup, then
one summary.  `tgInit` is `m.telegram != nil`; `sendOk` is the transport
outcome of each Telegram call (alert failures are logged and do not stop the
loop; a summary failure is the returned error). -/
def sendNotifications (tgInit : Bool) (sendOk : NotifCall → Bool)
    (statuses : List BackupStatus) (successCount failedCount : Nat)
    (failedClients : List String) : List NotifCall × Except String Unit :=
  if !tgInit then
    ([], .error ("telegram client not initialized"))
  else
    let alerts := (statuses.filter (fun s => !s.hasBackup)).map alertFor
    let summaryCall := NotifCall.summary statuses.length successCount failedCount failedClients
    (alerts ++ [summaryCall],
     if sendOk summaryCall then .ok () else .error ("failed to send summary report"))

/-- The mutable locals of the `CheckOnce` loop plus the observable call
trace: `statuses`, `successCount`, `failedCount`, `failedClients`. -/
structure Cycle where
  statuses : List BackupStatus := []
  successCount : Nat := 0
  failedCount : Nat := 0
  failedClients : List String := []
  events : List Event := []
deriving Repr, DecidableEq

def emptyCycle : Cycle := {}

/-- The body of the inner `for _, subfolder := range subfolders` loop of
`CheckOnce`: append the client status, then bump exactly one counter. -/
def clientStep (st : Storage) (now : Nat) (acc : Cycle) (sub : Folder) : Cycle :=
  let (status, evs) := checkClientBackup st now sub.id sub.name
  let acc := { acc with statuses := acc.statuses ++ [status],
                        events := acc.events ++ evs }
  if status.error.isSome then
    { acc with failedCount := acc.failedCount + 1,
               failedClients := acc.failedClients ++ [status.clientName] }
  else if status.hasBackup then
    { acc with successCount := acc.successCount + 1 }
  else
    { acc with failedCount := acc.failedCount + 1,
               failedClients := acc.failedClients ++ [status.clientName] }

/-- The body of the outer `for _, folderID := range MonitorPaths` loop: a
subfolder-listing failure logs and `continue`s, contributing nothing. -/
def pathStep (st : Storage) (now : Nat) (acc : Cycle) (folderID : String) : Cycle :=
  match st.subfoldersOf folderID with
  | .error _ =>
      { acc with events := acc.events ++ [Event.listSubfolders folderID] }
  | .ok subs =>
      subs.foldl (clientStep st now)
        { acc with events := acc.events ++ [Event.listSubfolders folderID] }

/-- Everything `Monitor.CheckOnce` reads: the clock, the stored OneDrive
credential, the refresh collaborator, the monitored paths, the storage
collaborator, and the Telegram transport. -/
structure Env where
  now : Nat
  cfg : OneDriveConfig
  refreshCollab : Token → Except String Token
  monitorPaths : List String
  storage : Storage
  tgInit : Bool
  sendOk : NotifCall → Bool

/-- Model of `Monitor.CheckOnce`: refresh the token (its failure aborts the cycle),
check every client under every monitored path, then send notifications
(whose failure is logged, not returned).  Result: the returned error, and
the cycle's locals plus observable call trace. -/
def CheckOnce (env : Env) : Option String × Cycle :=
  match (refreshTokenIfNeeded env.cfg (env.now : Int) env.refreshCollab).1 with
  | .error e => (some ("failed to refresh token: " ++ e), emptyCycle)
  | .ok _ =>
      let c := env.monitorPaths.foldl (pathStep env.storage env.now) emptyCycle
      let calls :=
        (sendNotifications env.tgInit env.sendOk c.statuses c.successCount
          c.failedCount c.failedClients).1
      (none, { c with events := c.events ++ calls.map Event.notif })

/-- A status counted as a success by the `CheckOnce` loop: no error and a
fresh backup. -/
def goodStatus (s : BackupStatus) : Bool := s.error.isNone && s.hasBackup

/-- A status counted as a failure by the `CheckOnce` loop: errored or stale. -/
def badStatus (s : BackupStatus) : Bool := s.error.isSome || !s.hasBackup

def countGood (l : List BackupStatus) : Nat := (l.filter goodStatus).length

def countBad (l : List BackupStatus) : Nat := (l.filter badStatus).length

def badNames (l : List BackupStatus) : List String :=
  (l.filter badStatus).map (fun s => s.clientName)

/-- The statuses produced for the clients of one subfolder listing. -/
def clientStatuses (st : Storage) (now : Nat) (subs : List Folder) : List BackupStatus :=
  subs.map (fun sub => (checkClientBackup st now sub.id sub.name).1)

/-- The statuses one monitored path contributes to a cycle: none when its
subfolder listing fails, one per discovered client otherwise. -/
def pathStatuses (st : Storage) (now : Nat) (folderID : String) : List BackupStatus :=
  match st.subfoldersOf folderID with
  | .error _ => []
  | .ok subs => clientStatuses st now subs

/-- All statuses of one cycle, path by path. -/
def cycleStatuses (st : Storage) (now : Nat) : List String → List BackupStatus
  | [] => []
  | p :: ps => pathStatuses st now p ++ cycleStatuses st now ps

def clientEvents (st : Storage) (now : Nat) : List Folder → List Event
  | [] => []
  | sub :: rest => (checkClientBackup st now sub.id sub.name).2 ++ clientEvents st now rest

def pathEvents (st : Storage) (now : Nat) (folderID : String) : List Event :=
  match st.subfoldersOf folderID with
  | .error _ => [Event.listSubfolders folderID]
  | .ok subs => Event.listSubfolders folderID :: clientEvents st now subs

def cycleEvents (st : Storage) (now : Nat) : List String → List Event
  | [] => []
  | p :: ps => pathEvents st now p ++ cycleEvents st now ps

/-- Recognizes the summary notification among dispatched calls. -/
def isSummaryCall : NotifCall → Bool
  | .summary _ _ _ _ => true
  | _ => false

/-! ### Concrete fixtures used to instantiate the theorems -/

/-- A storage collaborator with one client folder containing a `snapshots`
subfolder whose single file was created at second 90000 (UTC day 1). -/
def wStore : Storage :=
  { subfoldersOf := fun _ => .ok [{ id := "sid", name := "snapshots" }],
    filesOf := fun _ => .ok [{ createdTime := 90000 }] }

/-- A refresh collaborator that returns the token unchanged. -/
def wCollab : Token → Except String Token := fun t => .ok t

/-- A credential whose expiry is far in the future (refresh skipped). -/
def wCfg : OneDriveConfig :=
  { accessToken := "a", refreshToken := "r", tokenExpiry := 1000000 }

/-- A credential with no recorded expiry (never authenticated). -/
def wCfg0 : OneDriveConfig := { tokenExpiry := 0 }

/-- A healthy one-path environment. -/
def wEnv : Env :=
  { now := 100000, cfg := wCfg, refreshCollab := wCollab,
    monitorPaths := [("root")], storage := wStore, tgInit := true,
    sendOk := fun _ => true }

/-- A storage collaborator whose client folder `c1` has no `snapshots`
subfolder. -/
def wStoreMissing : Storage :=
  { subfoldersOf := fun fid =>
      if fid == "root" then .ok [{ id := "c1", name := "Alpha" }]
      else .ok [{ id := "x", name := "data" }],
    filesOf := fun _ => .ok [] }

/-- An environment whose only client lacks a `snapshots` folder. -/
def wEnvMissing : Env := { wEnv with storage := wStoreMissing }

/-- An environment that was never authenticated. -/
def wEnvFail : Env := { wEnv with cfg := wCfg0 }

/-- A storage collaborator where listing the path `bad` fails with a
transport error but everything else behaves like `wStore`. -/
def wStoreC8 : Storage :=
  { wStore with
    subfoldersOf := fun fid =>
      if fid == "bad" then .error ("transport error") else wStore.subfoldersOf fid }

/-- A two-path environment whose first monitored path fails to list. -/
def wEnvC8 : Env := { wEnv with monitorPaths := [("bad"), ("root")], storage := wStoreC8 }

/-- A storage collaborator whose snapshots folder holds one file with the
zero creation timestamp. -/
def wStoreZero : Storage :=
  { wStore with filesOf := fun _ => .ok [{ createdTime := 0 }] }

/-! ### Helper lemmas -/

lemma truncDay_eq_iff (a b : Nat) : truncDay a = truncDay b ↔ a / daySecs = b / daySecs := by
  unfold truncDay daySecs
  omega

lemma isCreatedToday_iff (now : Nat) (f : FileInfo) :
    isCreatedToday now f = true ↔ f.createdTime / daySecs = now / daySecs := by
  unfold isCreatedToday
  rw [beq_iff_eq, truncDay_eq_iff]

lemma countGood_cons (s : BackupStatus) (l : List BackupStatus) :
    countGood (s :: l) = (if goodStatus s then 1 else 0) + countGood l := by
  by_cases h : goodStatus s <;> simp [countGood, List.filter_cons, h, Nat.add_comm]

lemma countBad_cons (s : BackupStatus) (l : List BackupStatus) :
    countBad (s :: l) = (if badStatus s then 1 else 0) + countBad l := by
  by_cases h : badStatus s <;> simp [countBad, List.filter_cons, h, Nat.add_comm]

lemma badNames_cons (s : BackupStatus) (l : List BackupStatus) :
    badNames (s :: l) = (if badStatus s then [s.clientName] else []) ++ badNames l := by
  by_cases h : badStatus s <;> simp [badNames, List.filter_cons, h]

lemma countGood_append (a b : List BackupStatus) :
    countGood (a ++ b) = countGood a + countGood b := by
  simp [countGood, List.filter_append]

lemma countBad_append (a b : List BackupStatus) :
    countBad (a ++ b) = countBad a + countBad b := by
  simp [countBad, List.filter_append]

lemma badNames_append (a b : List BackupStatus) :
    badNames (a ++ b) = badNames a ++ badNames b := by
  simp [badNames, List.filter_append]

lemma countGood_add_countBad (l : List BackupStatus) :
    countGood l + countBad l = l.length := by
  induction l with
  | nil => rfl
  | cons s rest ih =>
      rw [countGood_cons, countBad_cons]
      have hgb : badStatus s = !goodStatus s := by
        rcases s with ⟨cn, fp, hb, fc, lb, err⟩
        cases err <;> cases hb <;> rfl
      cases h : goodStatus s <;> simp [h, hgb] <;> omega

lemma clientStep_eq (st : Storage) (now : Nat) (acc : Cycle) (sub : Folder) :
    clientStep st now acc sub =
      { statuses := acc.statuses ++ [(checkClientBackup st now sub.id sub.name).1],
        successCount := acc.successCount +
          (if goodStatus (checkClientBackup st now sub.id sub.name).1 then 1 else 0),
        failedCount := acc.failedCount +
          (if badStatus (checkClientBackup st now sub.id sub.name).1 then 1 else 0),
        failedClients := acc.failedClients ++
          (if badStatus (checkClientBackup st now sub.id sub.name).1 then
            [(checkClientBackup st now sub.id sub.name).1.clientName] else []),
        events := acc.events ++ (checkClientBackup st now sub.id sub.name).2 } := by
  rcases h : checkClientBackup st now sub.id sub.name with ⟨status, evs⟩
  simp only [clientStep, h]
  obtain ⟨cn, fp, hb, fc, lb, err⟩ := status
  cases err <;> cases hb <;> simp [goodStatus, badStatus]

lemma foldl_clientStep_eq (st : Storage) (now : Nat) :
    ∀ (subs : List Folder) (acc : Cycle),
      subs.foldl (clientStep st now) acc =
        { statuses := acc.statuses ++ clientStatuses st now subs,
          successCount := acc.successCount + countGood (clientStatuses st now subs),
          failedCount := acc.failedCount + countBad (clientStatuses st now subs),
          failedClients := acc.failedClients ++ badNames (clientStatuses st now subs),
          events := acc.events ++ clientEvents st now subs } := by
  intro subs
  induction subs with
  | nil =>
      intro acc
      simp [clientStatuses, clientEvents, countGood, countBad, badNames]
  | cons sub rest ih =>
      intro acc
      rw [List.foldl_cons, clientStep_eq, ih]
      simp [clientStatuses, clientEvents, countGood_cons, countBad_cons,
        badNames_cons, Cycle.mk.injEq, List.append_assoc, Nat.add_assoc]

lemma pathStep_eq (st : Storage) (now : Nat) (acc : Cycle) (folderID : String) :
    pathStep st now acc folderID =
      { statuses := acc.statuses ++ pathStatuses st now folderID,
        successCount := acc.successCount + countGood (pathStatuses st now folderID),
        failedCount := acc.failedCount + countBad (pathStatuses st now folderID),
        failedClients := acc.failedClients ++ badNames (pathStatuses st now folderID),
        events := acc.events ++ pathEvents st now folderID } := by
  cases h : st.subfoldersOf folderID with
  | error e =>
      simp [pathStep, pathStatuses, pathEvents, h, countGood, countBad, badNames]
  | ok subs =>
      simp only [pathStep, pathStatuses, pathEvents, h]
      rw [foldl_clientStep_eq]
      simp [List.append_assoc]

lemma foldl_pathStep_eq (st : Storage) (now : Nat) :
    ∀ (paths : List String) (acc : Cycle),
      paths.foldl (pathStep st now) acc =
        { statuses := acc.statuses ++ cycleStatuses st now paths,
          successCount := acc.successCount + countGood (cycleStatuses st now paths),
          failedCount := acc.failedCount + countBad (cycleStatuses st now paths),
          failedClients := acc.failedClients ++ badNames (cycleStatuses st now paths),
          events := acc.events ++ cycleEvents st now paths } := by
  intro paths
  induction paths with
  | nil =>
      intro acc
      simp [cycleStatuses, cycleEvents, countGood, countBad, badNames]
  | cons p rest ih =>
      intro acc
      rw [List.foldl_cons, pathStep_eq, ih]
      simp [cycleStatuses, cycleEvents, countGood_append, countBad_append,
        badNames_append, Cycle.mk.injEq, List.append_assoc, Nat.add_assoc]

/-- The normal form of one completed cycle, given a successful refresh. -/
lemma checkOnce_run (env : Env) (cfg2 : OneDriveConfig)
    (h : (refreshTokenIfNeeded env.cfg (env.now : Int) env.refreshCollab).1 = .ok cfg2) :
    CheckOnce env =
      (none,
       { statuses := cycleStatuses env.storage env.now env.monitorPaths,
         successCount := countGood (cycleStatuses env.storage env.now env.monitorPaths),
         failedCount := countBad (cycleStatuses env.storage env.now env.monitorPaths),
         failedClients := badNames (cycleStatuses env.storage env.now env.monitorPaths),
         events := cycleEvents env.storage env.now env.monitorPaths ++
           (sendNotifications env.tgInit env.sendOk
             (cycleStatuses env.storage env.now env.monitorPaths)
             (countGood (cycleStatuses env.storage env.now env.monitorPaths))
             (countBad (cycleStatuses env.storage env.now env.monitorPaths))
             (badNames (cycleStatuses env.storage env.now env.monitorPaths))).1.map
               Event.notif }) := by
  unfold CheckOnce
  simp only [h]
  rw [foldl_pathStep_eq]
  simp [emptyCycle]

/-! ### C1: freshness classification -/

/-- C1.  In `CheckTodayBackups`, a file is classified as fresh (kept in the
returned list of fresh files) iff it was listed and its creation time falls
on the same UTC calendar day as the check instant; a file from the previous
UTC day is never fresh, and the returned flag is true iff some listed file is
on the current UTC day. -/
theorem fresh_iff_same_utc_day (st : Storage) (now : Nat) (folderID : String)
    (files : List FileInfo)
    (hfiles : (GetAllSnapshots st folderID).1 = .ok files) :
    ∃ p : Bool × List FileInfo,
      (CheckTodayBackups st now folderID).1 = .ok p ∧
      (∀ f, f ∈ p.2 ↔ f ∈ files ∧ f.createdTime / daySecs = now / daySecs) ∧
      (∀ f ∈ files, f.createdTime / daySecs + 1 = now / daySecs → f ∉ p.2) ∧
      (p.1 = true ↔ ∃ f ∈ files, f.createdTime / daySecs = now / daySecs) := by
  unfold CheckTodayBackups
  rcases hg : GetAllSnapshots st folderID with ⟨r, evs⟩
  rw [hg] at hfiles
  cases r with
  | error e => exact absurd hfiles (by simp)
  | ok allFiles =>
      have hra : allFiles = files := by simpa using hfiles
      subst hra
      refine ⟨_, rfl, ?_, ?_, ?_⟩
      · intro f
        simp [List.mem_filter, isCreatedToday_iff]
      · intro f hf hday hmem
        rw [List.mem_filter, isCreatedToday_iff] at hmem
        omega
      · simp [List.length_pos_iff_exists_mem, List.mem_filter, isCreatedToday_iff]

theorem fresh_iff_same_utc_day_witness :
    ∃ p : Bool × List FileInfo,
      (CheckTodayBackups wStore 100000 ("cl")).1 = .ok p ∧
      (∀ f, f ∈ p.2 ↔
        f ∈ [({ createdTime := 90000 } : FileInfo)] ∧
          f.createdTime / daySecs = 100000 / daySecs) ∧
      (∀ f ∈ [({ createdTime := 90000 } : FileInfo)],
        f.createdTime / daySecs + 1 = 100000 / daySecs → f ∉ p.2) ∧
      (p.1 = true ↔ ∃ f ∈ [({ createdTime := 90000 } : FileInfo)],
        f.createdTime / daySecs = 100000 / daySecs) :=
  fresh_iff_same_utc_day wStore 100000 ("cl") [{ createdTime := 90000 }] rfl

lemma checkClientBackup_of_getAll_error (st : Storage) (now : Nat) (fid cn e : String)
    (h : (GetAllSnapshots st fid).1 = .error e) :
    (checkClientBackup st now fid cn).1 =
      { clientName := cn, folderPath := fid, error := some e } := by
  rcases hg : GetAllSnapshots st fid with ⟨r, evs⟩
  rw [hg] at h
  simp only at h
  subst h
  unfold checkClientBackup CheckTodayBackups
  simp [hg]

lemma checkClientBackup_of_getAll_ok (st : Storage) (now : Nat) (fid cn : String)
    (files : List FileInfo) (h : (GetAllSnapshots st fid).1 = .ok files) :
    (checkClientBackup st now fid cn).1 =
      { clientName := cn, folderPath := fid,
        hasBackup := decide (0 < (files.filter (isCreatedToday now)).length),
        fileCount := (files.filter (isCreatedToday now)).length,
        lastBackup := latestCreated files } := by
  rcases hg : GetAllSnapshots st fid with ⟨r, evs⟩
  rw [hg] at h
  simp only at h
  subst h
  unfold checkClientBackup CheckTodayBackups
  simp [hg]

lemma checkClientBackup_error_fields (st : Storage) (now : Nat) (fid cn : String)
    (hc : (checkClientBackup st now fid cn).1.error.isSome = true) :
    (checkClientBackup st now fid cn).1.hasBackup = false ∧
    (checkClientBackup st now fid cn).1.fileCount = 0 := by
  rcases hg : (GetAllSnapshots st fid).1 with e | files
  · rw [checkClientBackup_of_getAll_error st now fid cn e hg]
    exact ⟨rfl, rfl⟩
  · rw [checkClientBackup_of_getAll_ok st now fid cn files hg] at hc
    simp at hc

lemma mem_cycleStatuses (st : Storage) (now : Nat) :
    ∀ (paths : List String) (s : BackupStatus), s ∈ cycleStatuses st now paths →
      ∃ fid cn, s = (checkClientBackup st now fid cn).1 := by
  intro paths
  induction paths with
  | nil => intro s hs; simp [cycleStatuses] at hs
  | cons p ps ih =>
      intro s hs
      simp only [cycleStatuses, List.mem_append] at hs
      rcases hs with hs | hs
      · unfold pathStatuses at hs
        cases h : st.subfoldersOf p with
        | error e => rw [h] at hs; simp at hs
        | ok subs =>
            rw [h] at hs
            simp only [clientStatuses, List.mem_map] at hs
            obtain ⟨sub, _, heq⟩ := hs
            exact ⟨sub.id, sub.name, heq.symm⟩
      · exact ih s hs

lemma mem_badNames_of (l : List BackupStatus) (s : BackupStatus) (hs : s ∈ l)
    (hb : badStatus s = true) : s.clientName ∈ badNames l := by
  simp only [badNames, List.mem_map]
  exact ⟨s, List.mem_filter.mpr ⟨hs, hb⟩, rfl⟩

lemma getAllSnapshots_missing (st : Storage) (fid : String) (subs : List Folder)
    (h : st.subfoldersOf fid = .ok subs) (hn : ∀ f ∈ subs, f.name ≠ "snapshots") :
    (GetAllSnapshots st fid).1 =
      .error ("snapshots folder not found in folder " ++ fid) := by
  have hfind : subs.find? (fun f => f.name == "snapshots") = none := by
    rw [List.find?_eq_none]
    intro f hf
    simp [hn f hf]
  unfold GetAllSnapshots findSnapshotsID
  rw [h]
  simp [hfind]

/-! ### C2: success + failed = total -/

/-- C2.  In every check cycle, the success and failure counters of
`CheckOnce` sum to the number of `BackupStatus` records produced: every
produced status increments exactly one of the two. -/
theorem success_add_failed_eq_total (env : Env) :
    (CheckOnce env).2.successCount + (CheckOnce env).2.failedCount
      = (CheckOnce env).2.statuses.length := by
  cases h : (refreshTokenIfNeeded env.cfg (env.now : Int) env.refreshCollab).1 with
  | error e =>
      unfold CheckOnce
      simp [h, emptyCycle]
  | ok cfg2 =>
      rw [checkOnce_run env cfg2 h]
      exact countGood_add_countBad _

/-! ### C3: an errored status is always a failure -/

/-- C3.  Every `BackupStatus` carrying an error has `hasBackup = false` and
`fileCount = 0`, its client is listed among the failed clients, the success
counter counts only error-free fresh statuses, and a client without a
`snapshots` subfolder always yields such an errored status. -/
theorem errored_status_always_failed (env : Env) (cfg2 : OneDriveConfig)
    (h : (refreshTokenIfNeeded env.cfg (env.now : Int) env.refreshCollab).1 = .ok cfg2) :
    (∀ s ∈ (CheckOnce env).2.statuses, s.error.isSome = true →
        s.hasBackup = false ∧ s.fileCount = 0 ∧
        s.clientName ∈ (CheckOnce env).2.failedClients) ∧
    ((CheckOnce env).2.successCount =
      ((CheckOnce env).2.statuses.filter (fun s => s.error.isNone && s.hasBackup)).length) ∧
    (∀ (st : Storage) (now : Nat) (fid cn : String) (subs : List Folder),
        st.subfoldersOf fid = .ok subs →
        (∀ f ∈ subs, f.name ≠ "snapshots") →
        (checkClientBackup st now fid cn).1.error.isSome = true) := by
  rw [checkOnce_run env cfg2 h]
  refine ⟨?_, rfl, ?_⟩
  · intro s hs hc
    obtain ⟨fid, cn, rfl⟩ :=
      mem_cycleStatuses env.storage env.now env.monitorPaths s hs
    obtain ⟨hhb, hfc⟩ := checkClientBackup_error_fields env.storage env.now fid cn hc
    refine ⟨hhb, hfc, ?_⟩
    exact mem_badNames_of _ _ hs (by simp [badStatus, hc])
  · intro st now fid cn subs hok hn
    rw [checkClientBackup_of_getAll_error st now fid cn _
      (getAllSnapshots_missing st fid subs hok hn)]
    rfl

theorem errored_status_always_failed_witness :
    (∀ s ∈ (CheckOnce wEnvMissing).2.statuses, s.error.isSome = true →
        s.hasBackup = false ∧ s.fileCount = 0 ∧
        s.clientName ∈ (CheckOnce wEnvMissing).2.failedClients) ∧
    (checkClientBackup wStoreMissing 100000 ("c1") ("Alpha")).1.error.isSome = true := by
  refine ⟨(errored_status_always_failed wEnvMissing wCfg rfl).1, ?_⟩
  exact (errored_status_always_failed wEnvMissing wCfg rfl).2.2 wStoreMissing 100000
    ("c1") ("Alpha") [{ id := "x", name := "data" }] rfl (by decide)

/-! ### C8: a failed path listing is isolated -/

/-- C8.  The statuses of one cycle decompose path by path: a monitored path
whose subfolder listing fails contributes the empty status list, a healthy
path contributes one status per discovered client, and sibling paths are
unaffected by a failing one. -/
theorem path_failure_isolated (env : Env) (cfg2 : OneDriveConfig)
    (h : (refreshTokenIfNeeded env.cfg (env.now : Int) env.refreshCollab).1 = .ok cfg2) :
    (CheckOnce env).2.statuses = cycleStatuses env.storage env.now env.monitorPaths ∧
    (∀ fid e, env.storage.subfoldersOf fid = .error e →
        pathStatuses env.storage env.now fid = []) ∧
    (∀ fid subs, env.storage.subfoldersOf fid = .ok subs →
        pathStatuses env.storage env.now fid = clientStatuses env.storage env.now subs) ∧
    (∀ p ps, cycleStatuses env.storage env.now (p :: ps) =
        pathStatuses env.storage env.now p ++ cycleStatuses env.storage env.now ps) := by
  refine ⟨?_, ?_, ?_, ?_⟩
  · rw [checkOnce_run env cfg2 h]
  · intro fid e he
    unfold pathStatuses
    rw [he]
  · intro fid subs hs
    unfold pathStatuses
    rw [hs]
  · intro p ps
    rfl

theorem path_failure_isolated_witness :
    (CheckOnce wEnvC8).2.statuses =
      cycleStatuses wEnvC8.storage wEnvC8.now wEnvC8.monitorPaths ∧
    pathStatuses wEnvC8.storage wEnvC8.now ("bad") = [] := by
  refine ⟨(path_failure_isolated wEnvC8 wCfg rfl).1, ?_⟩
  exact (path_failure_isolated wEnvC8 wCfg rfl).2.1 ("bad") ("transport error") rfl

/-! ### C6: refresh failure aborts the cycle -/

/-- C6.  When the credential refresh step fails (including the
never-authenticated case), `CheckOnce` returns an error and the cycle is
empty: no storage listing occurred, no status was produced, and no alert or
summary notification was sent. -/
theorem refresh_failure_aborts_cycle (env : Env) (e : String)
    (h : (refreshTokenIfNeeded env.cfg (env.now : Int) env.refreshCollab).1 = .error e) :
    CheckOnce env = (some ("failed to refresh token: " ++ e), emptyCycle) ∧
    (CheckOnce env).2.statuses = [] ∧
    (CheckOnce env).2.events = [] := by
  have h1 : CheckOnce env = (some ("failed to refresh token: " ++ e), emptyCycle) := by
    unfold CheckOnce
    simp [h]
  refine ⟨h1, ?_, ?_⟩ <;> rw [h1] <;> rfl

theorem refresh_failure_aborts_cycle_witness :
    CheckOnce wEnvFail =
      (some ("failed to refresh token: " ++ "no token expiry set"), emptyCycle) ∧
    (CheckOnce wEnvFail).2.statuses = [] ∧
    (CheckOnce wEnvFail).2.events = [] :=
  refresh_failure_aborts_cycle wEnvFail ("no token expiry set") rfl

/-! ### C10: a successful refresh means `CheckOnce` reports success -/

/-- C10.  `CheckOnce` returns no error exactly when the credential refresh
step succeeded; any error it returns is the refresh failure, wrapped — path
listing failures, per-client errors, stale clients and notification
failures never surface as a `CheckOnce` error. -/
theorem checkOnce_error_only_from_refresh (env : Env) :
    ((CheckOnce env).1 = none ↔
      ∃ c, (refreshTokenIfNeeded env.cfg (env.now : Int) env.refreshCollab).1 = .ok c) ∧
    (∀ msg, (CheckOnce env).1 = some msg →
      ∃ e, (refreshTokenIfNeeded env.cfg (env.now : Int) env.refreshCollab).1 = .error e ∧
        msg = "failed to refresh token: " ++ e) := by
  cases h : (refreshTokenIfNeeded env.cfg (env.now : Int) env.refreshCollab).1 with
  | error e =>
      have h1 : (CheckOnce env).1 = some ("failed to refresh token: " ++ e) := by
        unfold CheckOnce
        simp [h]
      constructor
      · rw [h1]
        simp
      · intro msg hm
        rw [h1] at hm
        refine ⟨e, rfl, ?_⟩
        exact (Option.some_inj.mp hm).symm
  | ok c =>
      have h1 : (CheckOnce env).1 = none := by
        rw [checkOnce_run env c h]
      constructor
      · rw [h1]
        simp
      · intro msg hm
        rw [h1] at hm
        exact absurd hm (by simp)

theorem checkOnce_error_only_from_refresh_witness :
    (CheckOnce wEnv).1 = none :=
  (checkOnce_error_only_from_refresh wEnv).1.mpr ⟨wCfg, rfl⟩

/-! ### C4: most-recent-backup timestamp -/

lemma latestCreated_eq_foldl_max (files : List FileInfo) :
    latestCreated files = (files.map (fun f => f.createdTime)).foldl max 0 := by
  unfold latestCreated
  have hstep : ∀ (a : Nat) (f : FileInfo),
      (if f.createdTime > a then f.createdTime else a) = max a f.createdTime := by
    intro a f
    rcases le_or_lt f.createdTime a with hle | hlt
    · rw [if_neg (by omega), max_eq_left hle]
    · rw [if_pos hlt, max_eq_right (le_of_lt hlt)]
  simp only [hstep]
  rw [List.foldl_map]

lemma foldl_max_spec (l : List Nat) :
    ∀ a : Nat, a ≤ l.foldl max a ∧ (∀ x ∈ l, x ≤ l.foldl max a) ∧
      (l.foldl max a = a ∨ l.foldl max a ∈ l) := by
  induction l with
  | nil => intro a; simp
  | cons x xs ih =>
      intro a
      simp only [List.foldl_cons]
      obtain ⟨h1, h2, h3⟩ := ih (max a x)
      refine ⟨le_trans (le_max_left a x) h1, ?_, ?_⟩
      · intro y hy
        rcases List.mem_cons.mp hy with rfl | hy2
        · exact le_trans (le_max_right a y) h1
        · exact h2 y hy2
      · rcases h3 with h3 | h3
        · rcases le_total x a with hxa | hax
          · left
            rw [h3, max_eq_left hxa]
          · right
            rw [h3, max_eq_right hax]
            exact List.mem_cons_self x xs
        · right
          exact List.mem_cons_of_mem x h3

lemma foldl_max_perm {l l2 : List Nat} (h : l.Perm l2) :
    ∀ a : Nat, l.foldl max a = l2.foldl max a := by
  induction h with
  | nil => intro a; rfl
  | cons x _ ih =>
      intro a
      simp only [List.foldl_cons]
      exact ih _
  | swap x y l =>
      intro a
      simp only [List.foldl_cons]
      congr 1
      rw [max_assoc, max_assoc, max_comm y x]
  | trans _ _ ih1 ih2 =>
      intro a
      rw [ih1, ih2]

/-- C4 counterexample.  The claim "the most-recent timestamp is absent (the
zero timestamp) exactly when the file list is empty" fails: a nonempty
listing whose only file carries the zero creation timestamp (as produced by
the source when `createdDateTime` is missing or unparseable) also yields the
zero, i.e. absent, timestamp, with no error recorded. -/
theorem mostRecent_absent_iff_empty_counterexample :
    (GetAllSnapshots wStoreZero ("c1")).1 = .ok [{ createdTime := 0 }] ∧
    ([({ createdTime := 0 } : FileInfo)] ≠ []) ∧
    (checkClientBackup wStoreZero 100000 ("c1") ("Alpha")).1.error = none ∧
    (checkClientBackup wStoreZero 100000 ("c1") ("Alpha")).1.lastBackup = 0 := by
  refine ⟨rfl, by simp, rfl, rfl⟩

/-- C4 (amended).  The reported most-recent-backup timestamp equals the
`latestBackup` scan over all listed files (fresh or not); that scan bounds
every creation time, is attained by some file whenever it is nonzero, is the
zero (absent) timestamp exactly when every listed file has the zero creation
timestamp — in particular when the list is empty — and is invariant under
any permutation of the file list. -/
theorem lastBackup_eq_max_created (st : Storage) (now : Nat) (fid cn : String)
    (files : List FileInfo) (h : (GetAllSnapshots st fid).1 = .ok files) :
    ((checkClientBackup st now fid cn).1.lastBackup = latestCreated files) ∧
    (∀ f ∈ files, f.createdTime ≤ latestCreated files) ∧
    (latestCreated files ≠ 0 → ∃ f ∈ files, f.createdTime = latestCreated files) ∧
    (latestCreated files = 0 ↔ ∀ f ∈ files, f.createdTime = 0) ∧
    (∀ files2, files.Perm files2 → latestCreated files = latestCreated files2) := by
  obtain ⟨hinit, hbound, hmem⟩ :=
    foldl_max_spec (files.map (fun f => f.createdTime)) 0
  refine ⟨?_, ?_, ?_, ?_, ?_⟩
  · rw [checkClientBackup_of_getAll_ok st now fid cn files h]
  · intro f hf
    rw [latestCreated_eq_foldl_max]
    exact hbound f.createdTime (List.mem_map_of_mem _ hf)
  · intro hne
    rw [latestCreated_eq_foldl_max] at hne ⊢
    rcases hmem with hz | hm
    · exact absurd hz hne
    · obtain ⟨f, hf, hfe⟩ := List.mem_map.mp hm
      exact ⟨f, hf, hfe⟩
  · rw [latestCreated_eq_foldl_max]
    constructor
    · intro hz f hf
      have := hbound f.createdTime (List.mem_map_of_mem _ hf)
      omega
    · intro hall
      rcases hmem with hz | hm
      · exact hz
      · obtain ⟨f, hf, hfe⟩ := List.mem_map.mp hm
        rw [← hfe]
        exact hall f hf
  · intro files2 hp
    rw [latestCreated_eq_foldl_max, latestCreated_eq_foldl_max]
    exact foldl_max_perm (hp.map (fun f => f.createdTime)) 0

theorem lastBackup_eq_max_created_witness :
    (checkClientBackup wStore 100000 ("cl") ("Alpha")).1.lastBackup =
      latestCreated [{ createdTime := 90000 }] ∧
    (latestCreated [({ createdTime := 90000 } : FileInfo)] = 0 ↔
      ∀ f ∈ [({ createdTime := 90000 } : FileInfo)], f.createdTime = 0) :=
  ⟨(lastBackup_eq_max_created wStore 100000 ("cl") ("Alpha") [{ createdTime := 90000 }] rfl).1,
   (lastBackup_eq_max_created wStore 100000 ("cl") ("Alpha") [{ createdTime := 90000 }] rfl).2.2.2.1⟩

/-! ### C5: token refresh safety margin -/

/-- C5.  `refreshTokenIfNeeded` skips the refresh call and returns the
credential unchanged exactly when the recorded expiry lies more than the
600-second (10-minute) safety margin beyond `now`; when the margin is not
exceeded the refresh collaborator is invoked; and with no recorded expiry it
fails immediately with the distinct not-authenticated error, without calling
the collaborator. -/
theorem refresh_margin_policy (cfg : OneDriveConfig) (now : Int)
    (collab : Token → Except String Token) :
    (cfg.tokenExpiry = 0 →
      refreshTokenIfNeeded cfg now collab = (.error ("no token expiry set"), false)) ∧
    (cfg.tokenExpiry ≠ 0 →
      ((refreshTokenIfNeeded cfg now collab = (.ok cfg, false)) ↔
        cfg.tokenExpiry - now > 600)) ∧
    (cfg.tokenExpiry ≠ 0 → cfg.tokenExpiry - now ≤ 600 →
      (refreshTokenIfNeeded cfg now collab).2 = true) := by
  refine ⟨?_, ?_, ?_⟩
  · intro h
    unfold refreshTokenIfNeeded
    simp [h]
  · intro h
    have h0 : ¬ ((cfg.tokenExpiry == 0) = true) := by simpa using h
    constructor
    · intro heq
      by_contra hng
      have hcond : ¬ (now < cfg.tokenExpiry - 600) := by omega
      unfold refreshTokenIfNeeded at heq
      rw [if_neg h0, if_neg hcond] at heq
      cases hcc : collab ⟨cfg.accessToken, cfg.refreshToken, cfg.tokenExpiry⟩ with
      | error e =>
          rw [hcc] at heq
          simp at heq
      | ok t =>
          rw [hcc] at heq
          simp at heq
    · intro hgt
      have hcond : now < cfg.tokenExpiry - 600 := by omega
      unfold refreshTokenIfNeeded
      rw [if_neg h0, if_pos hcond]
  · intro h hle
    have h0 : ¬ ((cfg.tokenExpiry == 0) = true) := by simpa using h
    have hcond : ¬ (now < cfg.tokenExpiry - 600) := by omega
    unfold refreshTokenIfNeeded
    rw [if_neg h0, if_neg hcond]
    cases hcc : collab ⟨cfg.accessToken, cfg.refreshToken, cfg.tokenExpiry⟩ with
    | error e => rfl
    | ok t => rfl

theorem refresh_margin_policy_witness :
    refreshTokenIfNeeded wCfg0 0 wCollab = (.error ("no token expiry set"), false) ∧
    refreshTokenIfNeeded { wCfg with tokenExpiry := 1200 } 0 wCollab =
      (.ok { wCfg with tokenExpiry := 1200 }, false) ∧
    (refreshTokenIfNeeded { wCfg with tokenExpiry := 300 } 0 wCollab).2 = true := by
  refine ⟨(refresh_margin_policy wCfg0 0 wCollab).1 rfl, ?_, ?_⟩
  · exact ((refresh_margin_policy { wCfg with tokenExpiry := 1200 } 0 wCollab).2.1
      (by decide)).mpr (by decide)
  · exact (refresh_margin_policy { wCfg with tokenExpiry := 300 } 0 wCollab).2.2
      (by decide) (by decide)

/-! ### C7: notification dispatch policy -/

/-- C7.  With the Telegram client initialized, `sendNotifications` dispatches
one alert per status without a fresh backup (errored ones included, each
carrying client name, path and last-backup label), all alerts strictly
before the summary, exactly one summary per cycle carrying the counts and
failed-client names — also when there are zero statuses — and the dispatched
call sequence does not depend on which individual sends fail. -/
theorem notification_dispatch_policy (sendOk : NotifCall → Bool)
    (statuses : List BackupStatus) (successCount failedCount : Nat)
    (failedClients : List String) :
    ((sendNotifications true sendOk statuses successCount failedCount failedClients).1 =
      (statuses.filter (fun s => !s.hasBackup)).map alertFor ++
        [NotifCall.summary statuses.length successCount failedCount failedClients]) ∧
    (((sendNotifications true sendOk statuses successCount failedCount failedClients).1.filter
        isSummaryCall).length = 1) ∧
    ((sendNotifications true sendOk statuses successCount failedCount failedClients).1.getLast?
      = some (NotifCall.summary statuses.length successCount failedCount failedClients)) ∧
    (∀ c ∈ (sendNotifications true sendOk statuses successCount failedCount
        failedClients).1.dropLast, isSummaryCall c = false) ∧
    (∀ sendOk2, (sendNotifications true sendOk2 statuses successCount failedCount
        failedClients).1 =
      (sendNotifications true sendOk statuses successCount failedCount failedClients).1) ∧
    ((sendNotifications true sendOk [] successCount failedCount failedClients).1 =
      [NotifCall.summary 0 successCount failedCount failedClients]) := by
  have he : ∀ g : NotifCall → Bool,
      (sendNotifications true g statuses successCount failedCount failedClients).1 =
        (statuses.filter (fun s => !s.hasBackup)).map alertFor ++
          [NotifCall.summary statuses.length successCount failedCount failedClients] := by
    intro g
    rfl
  refine ⟨he sendOk, ?_, ?_, ?_, ?_, rfl⟩
  · rw [he sendOk]
    simp [List.filter_append, List.filter_map, Function.comp, isSummaryCall, alertFor]
  · rw [he sendOk]
    exact List.getLast?_concat _
  · rw [he sendOk]
    rw [List.dropLast_concat]
    intro c hc
    obtain ⟨s, _, rfl⟩ := List.mem_map.mp hc
    rfl
  · intro sendOk2
    rw [he sendOk, he sendOk2]

theorem notification_dispatch_policy_witness :
    (sendNotifications true (fun _ => false)
        [{ clientName := "Beta", folderPath := "pid" }] 0 1 [("Beta")]).1 =
      (([{ clientName := "Beta", folderPath := "pid" }] : List BackupStatus).filter
        (fun s => !s.hasBackup)).map alertFor ++ [NotifCall.summary 1 0 1 [("Beta")]] :=
  (notification_dispatch_policy (fun _ => false)
    [{ clientName := "Beta", folderPath := "pid" }] 0 1 [("Beta")]).1

end ResticChecker
